import Mathlib

/-!
# Credential injection from service-account secrets

A shallow embedding of
`pkg/controller/kfservice/resources/credentials/service_account_credentials.go`
(`CredentialBuilder.CreateSecretVolumeAndEnv`) and the properties of its
classification / injection loop.

Modelling conventions
* The Go function mutates `*v1.Container` and `*[]v1.Volume` in place and returns an
  `error`.  The embedding passes the container and the volume list in by value and
  returns their final values next to the returned error (`none` is Go's `nil`).
  Both pointers are taken to be non-nil.
* `client.Client.Get` is a read of the cluster state.  The cluster state seen by one
  invocation is a snapshot: a `Client` is a pair of lookup functions from a namespaced
  name to either an error or the object.
* A Go `map[string][]byte` is an association list; only key presence
  (`_, ok := m[k]`) is ever observed, which is `List.lookup` returning `some`.
* Packages `s3` and `gcs` are imported by the file but their sources are not part of
  it.  Their constants and builder functions are carried in the records `S3Pkg` and
  `GCSPkg`, so every theorem holds for every value of those constants and every
  behaviour of those builders.
* Calls on the package-level logger are recorded, in order, in the `log` component.
-/

namespace Credentials

/-! ## Object model (k8s `core/v1`, `types`) -/

/-- Go `error` values are represented by their message. -/
abbrev Error := String

/-- The record `types.NamespacedName`. -/
structure NamespacedName where
  Namespace : String
  Name : String
deriving DecidableEq, Repr

/-- The record `v1.ObjectReference` (an entry of `ServiceAccount.Secrets`). -/
structure ObjectReference where
  Kind : String
  Namespace : String
  Name : String
deriving DecidableEq, Repr

/-- The record `v1.ServiceAccount`. -/
structure ServiceAccount where
  Name : String
  Namespace : String
  Secrets : List ObjectReference
deriving DecidableEq, Repr

/-- The record `v1.Secret`; `Data` is the Go map `map[string][]byte`. -/
structure Secret where
  Name : String
  Namespace : String
  Data : List (String × List Nat)
deriving DecidableEq, Repr

/-- The Go map read `_, ok := secret.Data[key]`: the value of `ok`. -/
def Secret.hasKey (secret : Secret) (key : String) : Bool :=
  (secret.Data.lookup key).isSome

/-- The record `v1.SecretKeySelector`. -/
structure SecretKeySelector where
  Name : String
  Key : String
deriving DecidableEq, Repr

/-- The record `v1.EnvVar`; `ValueFrom` keeps the secret-key source only. -/
structure EnvVar where
  Name : String
  Value : String
  ValueFrom : Option SecretKeySelector
deriving DecidableEq, Repr

/-- The record `v1.Volume`; `SecretName` is the secret volume source, when there is one. -/
structure Volume where
  Name : String
  SecretName : Option String
deriving DecidableEq, Repr

/-- The record `v1.VolumeMount`. -/
structure VolumeMount where
  Name : String
  ReadOnly : Bool
  MountPath : String
deriving DecidableEq, Repr

/-- The record `v1.Container`: the two fields the resolver writes, and a sample of the
fields it never names. -/
structure Container where
  Name : String
  Image : String
  Command : List String
  Args : List String
  Env : List EnvVar
  VolumeMounts : List VolumeMount
deriving DecidableEq, Repr

/-! ## Collaborators -/

/-- The part of `client.Client` the resolver uses: `Get` of a service account and `Get`
of a secret, by namespaced name. -/
structure Client where
  GetServiceAccount : NamespacedName → Except Error ServiceAccount
  GetSecret : NamespacedName → Except Error Secret

/-- The record `s3.S3Config`: the overlay of the backend-A key name. -/
structure S3Config where
  S3SecretAccessKeyName : String
deriving DecidableEq, Repr

/-- The record `gcs.GCSConfig`: the overlay of the backend-B key name. -/
structure GCSConfig where
  GCSCredentialFileName : String
deriving DecidableEq, Repr

/-- What the file uses of package `s3`: a constant and a builder. -/
structure S3Pkg where
  AWSSecretAccessKeyName : String
  BuildSecretEnvs : Secret → S3Config → List EnvVar

/-- What the file uses of package `gcs`: three constants and a builder. -/
structure GCSPkg where
  GCSCredentialFileName : String
  GCSCredentialEnvKey : String
  GCSCredentialVolumeMountPath : String
  BuildSecretVolume : Secret → Volume × VolumeMount

/-- Severity of a logger call: `log.Error`, or `log.V(v).Info` (`log.Info` is `v = 0`). -/
inductive LogLevel where
  | error
  | info (v : Nat)
deriving DecidableEq, Repr

/-- One call on the logger: level, the error passed (for `log.Error`), the message and
the key/value pairs. -/
structure LogEvent where
  level : LogLevel
  err : Option Error
  msg : String
  keysAndValues : List (String × String)
deriving DecidableEq, Repr

/-! ## The credential builder -/

/-- The record `CredentialConfig`. -/
structure CredentialConfig where
  S3 : S3Config
  GCS : GCSConfig
deriving DecidableEq, Repr

/-- The record `CredentialBuilder`. -/
structure CredentialBuilder where
  client : Client
  config : CredentialConfig

/-- The mutable state threaded through the loop over `serviceAccount.Secrets`. -/
structure LoopState where
  container : Container
  volumes : List Volume
  log : List LogEvent
deriving DecidableEq, Repr

/-- What a call of `CreateSecretVolumeAndEnv` leaves behind: the returned error, the
container and the volume list behind the two pointers, and the logger calls made. -/
structure Outcome where
  err : Option Error
  container : Container
  volumes : List Volume
  log : List LogEvent
deriving DecidableEq, Repr

/-- The body of `for _, secretRef := range serviceAccount.Secrets` (source lines 86-110),
with the two key names computed before the loop passed in. -/
def secretLoopBody (s3 : S3Pkg) (gcs : GCSPkg) (c : CredentialBuilder) (ns : String)
    (s3SecretAccessKeyName gcsCredentialFileName : String)
    (st : LoopState) (secretRef : ObjectReference) : LoopState :=
  match c.client.GetSecret { Name := secretRef.Name, Namespace := ns } with
  | .error err =>
    { st with
      log := st.log ++
        [{ level := .error, err := some err, msg := "Failed to find secret",
           keysAndValues := [("SecretName", secretRef.Name)] }] }
  | .ok secret =>
    if secret.hasKey s3SecretAccessKeyName then
      let envs := s3.BuildSecretEnvs secret c.config.S3
      { st with
        container := { st.container with Env := st.container.Env ++ envs }
        log := st.log ++
          [{ level := .info 0, err := none, msg := "Setting secret envs for s3",
             keysAndValues := [("S3Secret", secret.Name)] }] }
    else if secret.hasKey gcsCredentialFileName then
      let (volume, volumeMount) := gcs.BuildSecretVolume secret
      { container :=
          { st.container with
            VolumeMounts := st.container.VolumeMounts ++ [volumeMount]
            Env := st.container.Env ++
              [{ Name := gcs.GCSCredentialEnvKey
                 Value := gcs.GCSCredentialVolumeMountPath ++ gcsCredentialFileName
                 ValueFrom := none }] }
        volumes := st.volumes ++ [volume]
        log := st.log ++
          [{ level := .info 0, err := none, msg := "Setting secret volume for gcs",
             keysAndValues := [("GCSSecret", secret.Name)] }] }
    else
      { st with
        log := st.log ++
          [{ level := .info 5, err := none, msg := "Skipping non gcs/s3 secret",
             keysAndValues := [("Secret", secret.Name)] }] }

/-- The method `(*CredentialBuilder).CreateSecretVolumeAndEnv` (source lines 62-114). -/
def CreateSecretVolumeAndEnv (s3 : S3Pkg) (gcs : GCSPkg) (c : CredentialBuilder)
    (ns : String) (serviceAccountName : String)
    (container : Container) (volumes : List Volume) : Outcome :=
  let serviceAccountName :=
    if serviceAccountName = "" then "default" else serviceAccountName
  let s3SecretAccessKeyName :=
    if c.config.S3.S3SecretAccessKeyName ≠ "" then c.config.S3.S3SecretAccessKeyName
    else s3.AWSSecretAccessKeyName
  let gcsCredentialFileName :=
    if c.config.GCS.GCSCredentialFileName ≠ "" then c.config.GCS.GCSCredentialFileName
    else gcs.GCSCredentialFileName
  match c.client.GetServiceAccount { Name := serviceAccountName, Namespace := ns } with
  | .error err =>
    { err := none, container := container, volumes := volumes
      log :=
        [{ level := .error, err := some err, msg := "Failed to find service account",
           keysAndValues := [("ServiceAccountName", serviceAccountName)] }] }
  | .ok serviceAccount =>
    let st := serviceAccount.Secrets.foldl
      (secretLoopBody s3 gcs c ns s3SecretAccessKeyName gcsCredentialFileName)
      { container := container, volumes := volumes, log := [] }
    { err := none, container := st.container, volumes := st.volumes, log := st.log }

/-! ## What one reference contributes

The three functions below name "the entries appended for the secret behind a reference":
they are read off the branches of the loop body, and `secretLoopBody_container` /
`secretLoopBody_volumes` show that the loop body appends exactly these. -/

/-- The environment variables the loop body appends for one reference. -/
def appendedEnv (s3 : S3Pkg) (gcs : GCSPkg) (c : CredentialBuilder) (ns : String)
    (s3SecretAccessKeyName gcsCredentialFileName : String)
    (secretRef : ObjectReference) : List EnvVar :=
  match c.client.GetSecret { Name := secretRef.Name, Namespace := ns } with
  | .error _ => []
  | .ok secret =>
    if secret.hasKey s3SecretAccessKeyName then s3.BuildSecretEnvs secret c.config.S3
    else if secret.hasKey gcsCredentialFileName then
      [{ Name := gcs.GCSCredentialEnvKey
         Value := gcs.GCSCredentialVolumeMountPath ++ gcsCredentialFileName
         ValueFrom := none }]
    else []

/-- The volume mounts the loop body appends for one reference. -/
def appendedVolumeMounts (gcs : GCSPkg) (c : CredentialBuilder) (ns : String)
    (s3SecretAccessKeyName gcsCredentialFileName : String)
    (secretRef : ObjectReference) : List VolumeMount :=
  match c.client.GetSecret { Name := secretRef.Name, Namespace := ns } with
  | .error _ => []
  | .ok secret =>
    if secret.hasKey s3SecretAccessKeyName then []
    else if secret.hasKey gcsCredentialFileName then [(gcs.BuildSecretVolume secret).2]
    else []

/-- The volumes the loop body appends for one reference. -/
def appendedVolumes (gcs : GCSPkg) (c : CredentialBuilder) (ns : String)
    (s3SecretAccessKeyName gcsCredentialFileName : String)
    (secretRef : ObjectReference) : List Volume :=
  match c.client.GetSecret { Name := secretRef.Name, Namespace := ns } with
  | .error _ => []
  | .ok secret =>
    if secret.hasKey s3SecretAccessKeyName then []
    else if secret.hasKey gcsCredentialFileName then [(gcs.BuildSecretVolume secret).1]
    else []

/-- The key that recognises a backend-A secret: the overlay value when non-empty, else
the constant of package `s3` (source lines 67, 70-72). -/
def effectiveS3Key (s3 : S3Pkg) (c : CredentialBuilder) : String :=
  if c.config.S3.S3SecretAccessKeyName ≠ "" then c.config.S3.S3SecretAccessKeyName
  else s3.AWSSecretAccessKeyName

/-- The key that recognises a backend-B secret: the overlay value when non-empty, else
the constant of package `gcs` (source lines 68, 74-76). -/
def effectiveGCSKey (gcs : GCSPkg) (c : CredentialBuilder) : String :=
  if c.config.GCS.GCSCredentialFileName ≠ "" then c.config.GCS.GCSCredentialFileName
  else gcs.GCSCredentialFileName

/-- Modelled from the spec: the value of the constant `s3.AWSSecretAccessKeyName`, which
is declared in package `s3` and not in the file embedded here.  The spec's end-to-end
example calls the data key "awsAccessKeyID" the default backend-A key. -/
def specAWSSecretAccessKeyName : String := "awsAccessKeyID"

/-! ## Sample cluster, used to instantiate the theorems -/

/-- A sample of package `s3`: two variables that point into the secret. -/
def sampleS3 : S3Pkg where
  AWSSecretAccessKeyName := specAWSSecretAccessKeyName
  BuildSecretEnvs := fun secret cfg =>
    [{ Name := "AWS_ACCESS_KEY_ID", Value := ""
       ValueFrom := some { Name := secret.Name, Key := "awsAccessKeyID" } },
     { Name := "AWS_SECRET_ACCESS_KEY", Value := ""
       ValueFrom := some { Name := secret.Name, Key := cfg.S3SecretAccessKeyName } }]

/-- A sample of package `gcs`. -/
def sampleGCS : GCSPkg where
  GCSCredentialFileName := "gcloud-application-credentials.json"
  GCSCredentialEnvKey := "GOOGLE_APPLICATION_CREDENTIALS"
  GCSCredentialVolumeMountPath := "/var/secrets/"
  BuildSecretVolume := fun secret =>
    ({ Name := secret.Name, SecretName := some secret.Name },
     { Name := secret.Name, ReadOnly := true, MountPath := "/var/secrets/" })

/-- A reference to the secret called `name`. -/
def sampleRef (name : String) : ObjectReference :=
  { Kind := "Secret", Namespace := "", Name := name }

/-- Secrets of the sample cluster, by name: a backend-A secret `s3cred`, a secret `both`
with both default keys, a secret `custom` with the key `custom-key` only, a backend-B
secret `gcscred`, a secret `other` with neither key and a secret `empty` without data.
Every other name is not found. -/
def sampleGetSecret (n : NamespacedName) : Except Error Secret :=
  if n.Namespace = "ns1" then
    if n.Name = "s3cred" then
      .ok { Name := "s3cred", Namespace := "ns1", Data := [("awsAccessKeyID", [65, 75])] }
    else if n.Name = "both" then
      .ok { Name := "both", Namespace := "ns1"
            Data := [("gcloud-application-credentials.json", [123, 125]),
                     ("awsAccessKeyID", [65])] }
    else if n.Name = "custom" then
      .ok { Name := "custom", Namespace := "ns1", Data := [("custom-key", [1])] }
    else if n.Name = "gcscred" then
      .ok { Name := "gcscred", Namespace := "ns1"
            Data := [("gcloud-application-credentials.json", [123, 125])] }
    else if n.Name = "other" then
      .ok { Name := "other", Namespace := "ns1", Data := [("token", [7])] }
    else if n.Name = "empty" then
      .ok { Name := "empty", Namespace := "ns1", Data := [] }
    else .error "secret not found"
  else .error "secret not found"

/-- A client of the sample cluster in which the service account `ns1/default` references
the secrets named in `refs`, and no other service account exists. -/
def sampleClient (refs : List String) : Client where
  GetServiceAccount := fun n =>
    if n.Namespace = "ns1" ∧ n.Name = "default" then
      .ok { Name := "default", Namespace := "ns1", Secrets := refs.map sampleRef }
    else .error "serviceaccount not found"
  GetSecret := sampleGetSecret

/-- A builder over the sample cluster with the given overlay key names. -/
def sampleBuilder (refs : List String) (s3Key gcsKey : String) : CredentialBuilder where
  client := sampleClient refs
  config := { S3 := { S3SecretAccessKeyName := s3Key },
              GCS := { GCSCredentialFileName := gcsKey } }

/-- A sample container that already carries one variable and one mount. -/
def sampleContainer : Container where
  Name := "user-container"
  Image := "tensorflow/serving"
  Command := []
  Args := ["serve"]
  Env := [{ Name := "STORAGE_URI", Value := "s3://bucket/model", ValueFrom := none }]
  VolumeMounts := [{ Name := "cache", ReadOnly := false, MountPath := "/cache" }]

/-- A sample volume list that already carries one volume. -/
def sampleVolumes : List Volume := [{ Name := "cache", SecretName := none }]

/-! ## Structural lemmas -/

theorem secretLoopBody_container (s3 : S3Pkg) (gcs : GCSPkg) (c : CredentialBuilder)
    (ns kA kB : String) (st : LoopState) (r : ObjectReference) :
    (secretLoopBody s3 gcs c ns kA kB st r).container =
      { st.container with
        Env := st.container.Env ++ appendedEnv s3 gcs c ns kA kB r
        VolumeMounts := st.container.VolumeMounts ++ appendedVolumeMounts gcs c ns kA kB r } := by
  unfold secretLoopBody appendedEnv appendedVolumeMounts
  cases c.client.GetSecret { Name := r.Name, Namespace := ns } with
  | error e => simp
  | ok secret =>
    by_cases hA : secret.hasKey kA = true
    · simp [hA]
    · by_cases hB : secret.hasKey kB = true
      · simp [hA, hB]
      · simp [hA, hB]

theorem secretLoopBody_volumes (s3 : S3Pkg) (gcs : GCSPkg) (c : CredentialBuilder)
    (ns kA kB : String) (st : LoopState) (r : ObjectReference) :
    (secretLoopBody s3 gcs c ns kA kB st r).volumes =
      st.volumes ++ appendedVolumes gcs c ns kA kB r := by
  unfold secretLoopBody appendedVolumes
  cases c.client.GetSecret { Name := r.Name, Namespace := ns } with
  | error e => simp
  | ok secret =>
    by_cases hA : secret.hasKey kA = true
    · simp [hA]
    · by_cases hB : secret.hasKey kB = true
      · simp [hA, hB]
      · simp [hA, hB]

theorem foldl_secretLoopBody_container (s3 : S3Pkg) (gcs : GCSPkg) (c : CredentialBuilder)
    (ns kA kB : String) (refs : List ObjectReference) (st : LoopState) :
    (refs.foldl (secretLoopBody s3 gcs c ns kA kB) st).container =
      { st.container with
        Env := st.container.Env ++ refs.flatMap (appendedEnv s3 gcs c ns kA kB)
        VolumeMounts := st.container.VolumeMounts ++
          refs.flatMap (appendedVolumeMounts gcs c ns kA kB) } := by
  induction refs generalizing st with
  | nil => simp
  | cons r rest ih =>
    rw [List.foldl_cons, ih, secretLoopBody_container]
    simp [List.append_assoc]

theorem foldl_secretLoopBody_volumes (s3 : S3Pkg) (gcs : GCSPkg) (c : CredentialBuilder)
    (ns kA kB : String) (refs : List ObjectReference) (st : LoopState) :
    (refs.foldl (secretLoopBody s3 gcs c ns kA kB) st).volumes =
      st.volumes ++ refs.flatMap (appendedVolumes gcs c ns kA kB) := by
  induction refs generalizing st with
  | nil => simp
  | cons r rest ih =>
    rw [List.foldl_cons, ih, secretLoopBody_volumes]
    simp [List.append_assoc]

/-- When the service-account lookup succeeds, the final container is the container on
entry with each reference's contribution appended, in enumeration order. -/
theorem CreateSecretVolumeAndEnv_ok_container (s3 : S3Pkg) (gcs : GCSPkg)
    (c : CredentialBuilder) (ns name : String) (container : Container)
    (volumes : List Volume) (sa : ServiceAccount)
    (hsa : c.client.GetServiceAccount
      { Name := if name = "" then "default" else name, Namespace := ns } = .ok sa) :
    (CreateSecretVolumeAndEnv s3 gcs c ns name container volumes).container =
      { container with
        Env := container.Env ++ sa.Secrets.flatMap
          (appendedEnv s3 gcs c ns (effectiveS3Key s3 c) (effectiveGCSKey gcs c))
        VolumeMounts := container.VolumeMounts ++ sa.Secrets.flatMap
          (appendedVolumeMounts gcs c ns (effectiveS3Key s3 c) (effectiveGCSKey gcs c)) } := by
  unfold CreateSecretVolumeAndEnv
  simp only [hsa]
  exact foldl_secretLoopBody_container s3 gcs c ns _ _ sa.Secrets _

/-- When the service-account lookup succeeds, the final volume list is the list on entry
with each reference's contribution appended, in enumeration order. -/
theorem CreateSecretVolumeAndEnv_ok_volumes (s3 : S3Pkg) (gcs : GCSPkg)
    (c : CredentialBuilder) (ns name : String) (container : Container)
    (volumes : List Volume) (sa : ServiceAccount)
    (hsa : c.client.GetServiceAccount
      { Name := if name = "" then "default" else name, Namespace := ns } = .ok sa) :
    (CreateSecretVolumeAndEnv s3 gcs c ns name container volumes).volumes =
      volumes ++ sa.Secrets.flatMap
        (appendedVolumes gcs c ns (effectiveS3Key s3 c) (effectiveGCSKey gcs c)) := by
  unfold CreateSecretVolumeAndEnv
  simp only [hsa]
  exact foldl_secretLoopBody_volumes s3 gcs c ns _ _ sa.Secrets _

/-- Whatever the lookups return, the method returns `nil`. -/
theorem CreateSecretVolumeAndEnv_err (s3 : S3Pkg) (gcs : GCSPkg)
    (c : CredentialBuilder) (ns name : String) (container : Container)
    (volumes : List Volume) :
    (CreateSecretVolumeAndEnv s3 gcs c ns name container volumes).err = none := by
  unfold CreateSecretVolumeAndEnv
  dsimp only
  generalize c.client.GetServiceAccount _ = r
  cases r <;> rfl

/-- The final container and volume list when the references split around one of them. -/
theorem CreateSecretVolumeAndEnv_split (s3 : S3Pkg) (gcs : GCSPkg)
    (c : CredentialBuilder) (ns name : String) (container : Container)
    (volumes : List Volume) (sa : ServiceAccount) (pre post : List ObjectReference)
    (r : ObjectReference)
    (hsa : c.client.GetServiceAccount
      { Name := if name = "" then "default" else name, Namespace := ns } = .ok sa)
    (hrefs : sa.Secrets = pre ++ r :: post) :
    (CreateSecretVolumeAndEnv s3 gcs c ns name container volumes).container.Env =
        container.Env
          ++ pre.flatMap (appendedEnv s3 gcs c ns (effectiveS3Key s3 c) (effectiveGCSKey gcs c))
          ++ appendedEnv s3 gcs c ns (effectiveS3Key s3 c) (effectiveGCSKey gcs c) r
          ++ post.flatMap (appendedEnv s3 gcs c ns (effectiveS3Key s3 c) (effectiveGCSKey gcs c))
    ∧ (CreateSecretVolumeAndEnv s3 gcs c ns name container volumes).container.VolumeMounts =
        container.VolumeMounts
          ++ pre.flatMap
              (appendedVolumeMounts gcs c ns (effectiveS3Key s3 c) (effectiveGCSKey gcs c))
          ++ appendedVolumeMounts gcs c ns (effectiveS3Key s3 c) (effectiveGCSKey gcs c) r
          ++ post.flatMap
              (appendedVolumeMounts gcs c ns (effectiveS3Key s3 c) (effectiveGCSKey gcs c))
    ∧ (CreateSecretVolumeAndEnv s3 gcs c ns name container volumes).volumes =
        volumes
          ++ pre.flatMap (appendedVolumes gcs c ns (effectiveS3Key s3 c) (effectiveGCSKey gcs c))
          ++ appendedVolumes gcs c ns (effectiveS3Key s3 c) (effectiveGCSKey gcs c) r
          ++ post.flatMap
              (appendedVolumes gcs c ns (effectiveS3Key s3 c) (effectiveGCSKey gcs c)) := by
  rw [CreateSecretVolumeAndEnv_ok_container s3 gcs c ns name container volumes sa hsa,
    CreateSecretVolumeAndEnv_ok_volumes s3 gcs c ns name container volumes sa hsa, hrefs]
  simp [List.flatMap_append, List.append_assoc]

theorem appendedEnv_backendA (s3 : S3Pkg) (gcs : GCSPkg) (c : CredentialBuilder)
    (ns kA kB : String) (r : ObjectReference) (secret : Secret)
    (hget : c.client.GetSecret { Name := r.Name, Namespace := ns } = .ok secret)
    (hA : secret.hasKey kA = true) :
    appendedEnv s3 gcs c ns kA kB r = s3.BuildSecretEnvs secret c.config.S3 := by
  simp [appendedEnv, hget, hA]

theorem appendedVolumeMounts_backendA (gcs : GCSPkg) (c : CredentialBuilder)
    (ns kA kB : String) (r : ObjectReference) (secret : Secret)
    (hget : c.client.GetSecret { Name := r.Name, Namespace := ns } = .ok secret)
    (hA : secret.hasKey kA = true) :
    appendedVolumeMounts gcs c ns kA kB r = [] := by
  simp [appendedVolumeMounts, hget, hA]

theorem appendedVolumes_backendA (gcs : GCSPkg) (c : CredentialBuilder)
    (ns kA kB : String) (r : ObjectReference) (secret : Secret)
    (hget : c.client.GetSecret { Name := r.Name, Namespace := ns } = .ok secret)
    (hA : secret.hasKey kA = true) :
    appendedVolumes gcs c ns kA kB r = [] := by
  simp [appendedVolumes, hget, hA]

theorem appendedEnv_backendB (s3 : S3Pkg) (gcs : GCSPkg) (c : CredentialBuilder)
    (ns kA kB : String) (r : ObjectReference) (secret : Secret)
    (hget : c.client.GetSecret { Name := r.Name, Namespace := ns } = .ok secret)
    (hA : secret.hasKey kA = false) (hB : secret.hasKey kB = true) :
    appendedEnv s3 gcs c ns kA kB r =
      [{ Name := gcs.GCSCredentialEnvKey
         Value := gcs.GCSCredentialVolumeMountPath ++ kB
         ValueFrom := none }] := by
  simp [appendedEnv, hget, hA, hB]

theorem appendedVolumeMounts_backendB (gcs : GCSPkg) (c : CredentialBuilder)
    (ns kA kB : String) (r : ObjectReference) (secret : Secret)
    (hget : c.client.GetSecret { Name := r.Name, Namespace := ns } = .ok secret)
    (hA : secret.hasKey kA = false) (hB : secret.hasKey kB = true) :
    appendedVolumeMounts gcs c ns kA kB r = [(gcs.BuildSecretVolume secret).2] := by
  simp [appendedVolumeMounts, hget, hA, hB]

theorem appendedVolumes_backendB (gcs : GCSPkg) (c : CredentialBuilder)
    (ns kA kB : String) (r : ObjectReference) (secret : Secret)
    (hget : c.client.GetSecret { Name := r.Name, Namespace := ns } = .ok secret)
    (hA : secret.hasKey kA = false) (hB : secret.hasKey kB = true) :
    appendedVolumes gcs c ns kA kB r = [(gcs.BuildSecretVolume secret).1] := by
  simp [appendedVolumes, hget, hA, hB]

theorem appendedEnv_unrecognized (s3 : S3Pkg) (gcs : GCSPkg) (c : CredentialBuilder)
    (ns kA kB : String) (r : ObjectReference) (secret : Secret)
    (hget : c.client.GetSecret { Name := r.Name, Namespace := ns } = .ok secret)
    (hA : secret.hasKey kA = false) (hB : secret.hasKey kB = false) :
    appendedEnv s3 gcs c ns kA kB r = [] := by
  simp [appendedEnv, hget, hA, hB]

theorem appendedVolumeMounts_unrecognized (gcs : GCSPkg) (c : CredentialBuilder)
    (ns kA kB : String) (r : ObjectReference) (secret : Secret)
    (hget : c.client.GetSecret { Name := r.Name, Namespace := ns } = .ok secret)
    (hA : secret.hasKey kA = false) (hB : secret.hasKey kB = false) :
    appendedVolumeMounts gcs c ns kA kB r = [] := by
  simp [appendedVolumeMounts, hget, hA, hB]

theorem appendedVolumes_unrecognized (gcs : GCSPkg) (c : CredentialBuilder)
    (ns kA kB : String) (r : ObjectReference) (secret : Secret)
    (hget : c.client.GetSecret { Name := r.Name, Namespace := ns } = .ok secret)
    (hA : secret.hasKey kA = false) (hB : secret.hasKey kB = false) :
    appendedVolumes gcs c ns kA kB r = [] := by
  simp [appendedVolumes, hget, hA, hB]

theorem appendedEnv_fetch_error (s3 : S3Pkg) (gcs : GCSPkg) (c : CredentialBuilder)
    (ns kA kB : String) (r : ObjectReference) (e : Error)
    (hget : c.client.GetSecret { Name := r.Name, Namespace := ns } = .error e) :
    appendedEnv s3 gcs c ns kA kB r = [] := by
  simp [appendedEnv, hget]

theorem appendedVolumeMounts_fetch_error (gcs : GCSPkg) (c : CredentialBuilder)
    (ns kA kB : String) (r : ObjectReference) (e : Error)
    (hget : c.client.GetSecret { Name := r.Name, Namespace := ns } = .error e) :
    appendedVolumeMounts gcs c ns kA kB r = [] := by
  simp [appendedVolumeMounts, hget]

theorem appendedVolumes_fetch_error (gcs : GCSPkg) (c : CredentialBuilder)
    (ns kA kB : String) (r : ObjectReference) (e : Error)
    (hget : c.client.GetSecret { Name := r.Name, Namespace := ns } = .error e) :
    appendedVolumes gcs c ns kA kB r = [] := by
  simp [appendedVolumes, hget]

/-- When the service-account lookup fails, the container and the volume list are the
ones on entry. -/
theorem CreateSecretVolumeAndEnv_lookup_error (s3 : S3Pkg) (gcs : GCSPkg)
    (c : CredentialBuilder) (ns name : String) (container : Container)
    (volumes : List Volume) (e : Error)
    (hsa : c.client.GetServiceAccount
      { Name := if name = "" then "default" else name, Namespace := ns } = .error e) :
    (CreateSecretVolumeAndEnv s3 gcs c ns name container volumes).container = container
    ∧ (CreateSecretVolumeAndEnv s3 gcs c ns name container volumes).volumes = volumes := by
  unfold CreateSecretVolumeAndEnv
  simp [hsa]

/-- Dropping the elements that contribute nothing does not change a concatenation. -/
theorem flatMap_filter_of_nil {α β : Type} (p : α → Bool) (f : α → List β)
    (h : ∀ x, p x = false → f x = []) (l : List α) :
    (l.filter p).flatMap f = l.flatMap f := by
  induction l with
  | nil => rfl
  | cons x xs ih =>
    by_cases hp : p x = true
    · simp [List.filter_cons, hp, ih]
    · have hp2 : p x = false := by simpa using hp
      simp [List.filter_cons, hp2, ih, h x hp2]

/-- A list splits around two of its positions. -/
theorem split_at_two_positions {α : Type} : ∀ (l : List α) (i j : Nat) (x y : α), i < j →
    l[i]? = some x → l[j]? = some y → ∃ p m q, l = p ++ x :: (m ++ y :: q) := by
  intro l
  induction l with
  | nil => intro i j x y _ hi _; simp at hi
  | cons h t ih =>
    intro i j x y hij hi hj
    cases j with
    | zero => omega
    | succ j2 =>
      rw [List.getElem?_cons_succ] at hj
      cases i with
      | zero =>
        rw [List.getElem?_cons_zero] at hi
        cases hi
        obtain ⟨m, q, hmq⟩ := List.append_of_mem (List.getElem?_mem hj)
        exact ⟨[], m, q, by simp [hmq]⟩
      | succ i2 =>
        rw [List.getElem?_cons_succ] at hi
        obtain ⟨p, m, q, hl⟩ := ih i2 j2 x y (by omega) hi hj
        exact ⟨h :: p, m, q, by simp [hl]⟩

/-- Two builders with the same overlay and the same secrets contribute the same. -/
theorem appended_congr (s3 : S3Pkg) (gcs : GCSPkg) (c c2 : CredentialBuilder)
    (ns kA kB : String) (hcfg : c2.config = c.config)
    (hsec : c2.client.GetSecret = c.client.GetSecret) :
    appendedEnv s3 gcs c2 ns kA kB = appendedEnv s3 gcs c ns kA kB
    ∧ appendedVolumeMounts gcs c2 ns kA kB = appendedVolumeMounts gcs c ns kA kB
    ∧ appendedVolumes gcs c2 ns kA kB = appendedVolumes gcs c ns kA kB := by
  refine ⟨?_, ?_, ?_⟩ <;> funext r
  · simp only [appendedEnv, hcfg, hsec]
  · simp only [appendedVolumeMounts, hsec]
  · simp only [appendedVolumes, hsec]

/-- A reference whose fetch does not succeed contributes nothing. -/
theorem appended_of_not_isOk (s3 : S3Pkg) (gcs : GCSPkg) (c : CredentialBuilder)
    (ns kA kB : String) (r : ObjectReference)
    (h : (c.client.GetSecret { Name := r.Name, Namespace := ns }).isOk = false) :
    appendedEnv s3 gcs c ns kA kB r = []
    ∧ appendedVolumeMounts gcs c ns kA kB r = []
    ∧ appendedVolumes gcs c ns kA kB r = [] := by
  cases hget : c.client.GetSecret { Name := r.Name, Namespace := ns } with
  | error e =>
    exact ⟨appendedEnv_fetch_error s3 gcs c ns kA kB r e hget,
      appendedVolumeMounts_fetch_error gcs c ns kA kB r e hget,
      appendedVolumes_fetch_error gcs c ns kA kB r e hget⟩
  | ok secret => rw [hget] at h; simp [Except.isOk, Except.toBool] at h

/-! ## Claims -/

/-- C1: a fetched secret whose data contains the effective backend-A key is handled as
backend-A whether or not it also contains the backend-B key.  The loop body appends
exactly the variables of `s3.BuildSecretEnvs` to the container's `Env` and appends
nothing to `VolumeMounts` or to the volume list; and in a whole call, the block this
reference contributes to the final `Env` is exactly those variables, with no block in
the final `VolumeMounts` or volume list. -/
theorem C1_backendA_has_priority (s3 : S3Pkg) (gcs : GCSPkg) (c : CredentialBuilder)
    (ns : String) (secretRef : ObjectReference) (secret : Secret)
    (hget : c.client.GetSecret { Name := secretRef.Name, Namespace := ns } = .ok secret)
    (hA : secret.hasKey (effectiveS3Key s3 c) = true) :
    (∀ st : LoopState,
      (secretLoopBody s3 gcs c ns (effectiveS3Key s3 c) (effectiveGCSKey gcs c)
          st secretRef).container.Env
        = st.container.Env ++ s3.BuildSecretEnvs secret c.config.S3
      ∧ (secretLoopBody s3 gcs c ns (effectiveS3Key s3 c) (effectiveGCSKey gcs c)
          st secretRef).container.VolumeMounts = st.container.VolumeMounts
      ∧ (secretLoopBody s3 gcs c ns (effectiveS3Key s3 c) (effectiveGCSKey gcs c)
          st secretRef).volumes = st.volumes)
    ∧ (∀ (name : String) (container : Container) (volumes : List Volume)
        (sa : ServiceAccount) (pre post : List ObjectReference),
        c.client.GetServiceAccount
          { Name := if name = "" then "default" else name, Namespace := ns } = .ok sa →
        sa.Secrets = pre ++ secretRef :: post →
        (CreateSecretVolumeAndEnv s3 gcs c ns name container volumes).container.Env =
            container.Env
              ++ pre.flatMap
                  (appendedEnv s3 gcs c ns (effectiveS3Key s3 c) (effectiveGCSKey gcs c))
              ++ s3.BuildSecretEnvs secret c.config.S3
              ++ post.flatMap
                  (appendedEnv s3 gcs c ns (effectiveS3Key s3 c) (effectiveGCSKey gcs c))
        ∧ (CreateSecretVolumeAndEnv s3 gcs c ns name container volumes).container.VolumeMounts =
            container.VolumeMounts
              ++ pre.flatMap
                  (appendedVolumeMounts gcs c ns (effectiveS3Key s3 c) (effectiveGCSKey gcs c))
              ++ post.flatMap
                  (appendedVolumeMounts gcs c ns (effectiveS3Key s3 c) (effectiveGCSKey gcs c))
        ∧ (CreateSecretVolumeAndEnv s3 gcs c ns name container volumes).volumes =
            volumes
              ++ pre.flatMap
                  (appendedVolumes gcs c ns (effectiveS3Key s3 c) (effectiveGCSKey gcs c))
              ++ post.flatMap
                  (appendedVolumes gcs c ns (effectiveS3Key s3 c) (effectiveGCSKey gcs c))) := by
  constructor
  · intro st
    rw [secretLoopBody_container, secretLoopBody_volumes,
      appendedEnv_backendA s3 gcs c ns _ _ secretRef secret hget hA,
      appendedVolumeMounts_backendA gcs c ns _ _ secretRef secret hget hA,
      appendedVolumes_backendA gcs c ns _ _ secretRef secret hget hA]
    simp
  · intro name container volumes sa pre post hsa hrefs
    have h := CreateSecretVolumeAndEnv_split s3 gcs c ns name container volumes sa pre post
      secretRef hsa hrefs
    rw [appendedEnv_backendA s3 gcs c ns _ _ secretRef secret hget hA,
      appendedVolumeMounts_backendA gcs c ns _ _ secretRef secret hget hA,
      appendedVolumes_backendA gcs c ns _ _ secretRef secret hget hA] at h
    simpa using h

/-- C1, instantiated: in the sample cluster the secret `both` carries the default keys of
both backends; the service account references `gcscred` and then `both`. -/
theorem C1_backendA_has_priority_witness :
    (sampleBuilder ["gcscred", "both"] "" "").client.GetSecret
        { Name := (sampleRef "both").Name, Namespace := "ns1" }
      = .ok { Name := "both", Namespace := "ns1"
              Data := [("gcloud-application-credentials.json", [123, 125]),
                       ("awsAccessKeyID", [65])] }
    ∧ Secret.hasKey
        { Name := "both", Namespace := "ns1"
          Data := [("gcloud-application-credentials.json", [123, 125]),
                   ("awsAccessKeyID", [65])] }
        (effectiveS3Key sampleS3 (sampleBuilder ["gcscred", "both"] "" "")) = true
    ∧ (CreateSecretVolumeAndEnv sampleS3 sampleGCS (sampleBuilder ["gcscred", "both"] "" "")
          "ns1" "" sampleContainer sampleVolumes).container.Env
        = sampleContainer.Env
          ++ [{ Name := "GOOGLE_APPLICATION_CREDENTIALS"
                Value := "/var/secrets/gcloud-application-credentials.json"
                ValueFrom := none }]
          ++ [{ Name := "AWS_ACCESS_KEY_ID", Value := ""
                ValueFrom := some { Name := "both", Key := "awsAccessKeyID" } },
              { Name := "AWS_SECRET_ACCESS_KEY", Value := ""
                ValueFrom := some { Name := "both", Key := "" } }]
    ∧ (CreateSecretVolumeAndEnv sampleS3 sampleGCS (sampleBuilder ["gcscred", "both"] "" "")
          "ns1" "" sampleContainer sampleVolumes).volumes
        = sampleVolumes ++ [{ Name := "gcscred", SecretName := some "gcscred" }] := by
  have h := C1_backendA_has_priority sampleS3 sampleGCS
    (sampleBuilder ["gcscred", "both"] "" "") "ns1" (sampleRef "both")
    { Name := "both", Namespace := "ns1"
      Data := [("gcloud-application-credentials.json", [123, 125]),
               ("awsAccessKeyID", [65])] }
    rfl (by decide)
  have h2 := h.2 "" sampleContainer sampleVolumes
    { Name := "default", Namespace := "ns1"
      Secrets := [sampleRef "gcscred", sampleRef "both"] }
    [sampleRef "gcscred"] [] rfl (by decide)
  refine ⟨rfl, by decide, ?_, ?_⟩
  · rw [h2.1]; decide
  · rw [h2.2.2]; decide

/-- C2: fail-open.  If the lookup of the service account (under the name the method
uses: the given one, or "default" for the empty string) returns an error, the method
returns `nil` and the container (its `Env`, its `VolumeMounts` and every other field)
and the volume list are exactly as on entry. -/
theorem C2_fail_open (s3 : S3Pkg) (gcs : GCSPkg) (c : CredentialBuilder)
    (ns serviceAccountName : String) (container : Container) (volumes : List Volume)
    (e : Error)
    (hsa : c.client.GetServiceAccount
      { Name := if serviceAccountName = "" then "default" else serviceAccountName,
        Namespace := ns } = .error e) :
    (CreateSecretVolumeAndEnv s3 gcs c ns serviceAccountName container volumes).err = none
    ∧ (CreateSecretVolumeAndEnv s3 gcs c ns serviceAccountName container volumes).container.Env
        = container.Env
    ∧ (CreateSecretVolumeAndEnv s3 gcs c ns serviceAccountName container
        volumes).container.VolumeMounts = container.VolumeMounts
    ∧ (CreateSecretVolumeAndEnv s3 gcs c ns serviceAccountName container volumes).volumes
        = volumes
    ∧ (CreateSecretVolumeAndEnv s3 gcs c ns serviceAccountName container volumes).container
        = container := by
  have h := CreateSecretVolumeAndEnv_lookup_error s3 gcs c ns serviceAccountName container
    volumes e hsa
  refine ⟨CreateSecretVolumeAndEnv_err s3 gcs c ns serviceAccountName container volumes,
    ?_, ?_, h.2, h.1⟩
  · rw [h.1]
  · rw [h.1]

/-- C2, instantiated: the sample cluster has no service account `ns1/missing`. -/
theorem C2_fail_open_witness :
    (sampleBuilder ["s3cred"] "" "").client.GetServiceAccount
        { Name := if "missing" = "" then "default" else "missing", Namespace := "ns1" }
      = .error "serviceaccount not found"
    ∧ (CreateSecretVolumeAndEnv sampleS3 sampleGCS (sampleBuilder ["s3cred"] "" "")
        "ns1" "missing" sampleContainer sampleVolumes).err = none
    ∧ (CreateSecretVolumeAndEnv sampleS3 sampleGCS (sampleBuilder ["s3cred"] "" "")
        "ns1" "missing" sampleContainer sampleVolumes).container = sampleContainer
    ∧ (CreateSecretVolumeAndEnv sampleS3 sampleGCS (sampleBuilder ["s3cred"] "" "")
        "ns1" "missing" sampleContainer sampleVolumes).volumes = sampleVolumes :=
  have h := C2_fail_open sampleS3 sampleGCS (sampleBuilder ["s3cred"] "" "")
    "ns1" "missing" sampleContainer sampleVolumes "serviceaccount not found" rfl
  ⟨rfl, h.1, h.2.2.2.2, h.2.2.2.1⟩

/-- C5: append-only mutation.  For every input, the `Env`, the `VolumeMounts` and the
volume list on entry are initial segments of the ones on exit, and the container
on exit differs from the container on entry in those two fields only. -/
theorem C5_append_only (s3 : S3Pkg) (gcs : GCSPkg) (c : CredentialBuilder)
    (ns serviceAccountName : String) (container : Container) (volumes : List Volume) :
    container.Env <+:
        (CreateSecretVolumeAndEnv s3 gcs c ns serviceAccountName container volumes).container.Env
    ∧ container.VolumeMounts <+:
        (CreateSecretVolumeAndEnv s3 gcs c ns serviceAccountName container
          volumes).container.VolumeMounts
    ∧ volumes <+:
        (CreateSecretVolumeAndEnv s3 gcs c ns serviceAccountName container volumes).volumes
    ∧ (CreateSecretVolumeAndEnv s3 gcs c ns serviceAccountName container volumes).container =
        { container with
          Env := (CreateSecretVolumeAndEnv s3 gcs c ns serviceAccountName container
            volumes).container.Env
          VolumeMounts := (CreateSecretVolumeAndEnv s3 gcs c ns serviceAccountName container
            volumes).container.VolumeMounts } := by
  cases hsa : c.client.GetServiceAccount
      { Name := if serviceAccountName = "" then "default" else serviceAccountName,
        Namespace := ns } with
  | error e =>
    have h := CreateSecretVolumeAndEnv_lookup_error s3 gcs c ns serviceAccountName container volumes e hsa
    rw [h.1, h.2]
    exact ⟨List.prefix_refl _, List.prefix_refl _, List.prefix_refl _, rfl⟩
  | ok sa =>
    rw [CreateSecretVolumeAndEnv_ok_container s3 gcs c ns serviceAccountName container volumes
        sa hsa,
      CreateSecretVolumeAndEnv_ok_volumes s3 gcs c ns serviceAccountName container volumes
        sa hsa]
    exact ⟨List.prefix_append _ _, List.prefix_append _ _, List.prefix_append _ _, rfl⟩

/-- C10: an empty service-account name behaves as the name "default": the two calls
have the same outcome (returned error, container, volume list, logger calls), and
the outcome of the call with the empty name depends on the service accounts of the
cluster only through the lookup of "default" in the given namespace. -/
theorem C10_default_service_account_name (s3 : S3Pkg) (gcs : GCSPkg)
    (c : CredentialBuilder) (ns : String) (container : Container) (volumes : List Volume) :
    CreateSecretVolumeAndEnv s3 gcs c ns "" container volumes
      = CreateSecretVolumeAndEnv s3 gcs c ns "default" container volumes
    ∧ (∀ c2 : CredentialBuilder,
        c2.config = c.config →
        c2.client.GetSecret = c.client.GetSecret →
        c2.client.GetServiceAccount { Name := "default", Namespace := ns }
          = c.client.GetServiceAccount { Name := "default", Namespace := ns } →
        CreateSecretVolumeAndEnv s3 gcs c2 ns "" container volumes
          = CreateSecretVolumeAndEnv s3 gcs c ns "" container volumes) := by
  constructor
  · rfl
  · intro c2 hcfg hsec hsa
    have hbody : ∀ kA kB, secretLoopBody s3 gcs c2 ns kA kB = secretLoopBody s3 gcs c ns kA kB := by
      intro kA kB
      funext st r
      simp only [secretLoopBody, hcfg, hsec]
    unfold CreateSecretVolumeAndEnv
    simp only [if_true, hcfg, hsa, hbody]

/-- C10, instantiated: two builders whose clients agree on `ns1/default` and on every
secret, and differ on another service account. -/
theorem C10_default_service_account_name_witness :
    CreateSecretVolumeAndEnv sampleS3 sampleGCS
        { client :=
            { GetServiceAccount := fun n =>
                if n.Name = "default" then
                  (sampleClient ["s3cred", "gcscred"]).GetServiceAccount n
                else .ok { Name := n.Name, Namespace := n.Namespace, Secrets := [] }
              GetSecret := sampleGetSecret }
          config := (sampleBuilder ["s3cred", "gcscred"] "" "").config }
        "ns1" "" sampleContainer sampleVolumes
      = CreateSecretVolumeAndEnv sampleS3 sampleGCS (sampleBuilder ["s3cred", "gcscred"] "" "")
          "ns1" "" sampleContainer sampleVolumes
    ∧ (CreateSecretVolumeAndEnv sampleS3 sampleGCS (sampleBuilder ["s3cred", "gcscred"] "" "")
          "ns1" "" sampleContainer sampleVolumes).volumes
        = sampleVolumes ++ [{ Name := "gcscred", SecretName := some "gcscred" }] :=
  ⟨(C10_default_service_account_name sampleS3 sampleGCS
      (sampleBuilder ["s3cred", "gcscred"] "" "") "ns1" sampleContainer sampleVolumes).2
      _ rfl rfl rfl,
    by decide⟩

/-- C3: partial tolerance.  A reference whose secret fetch fails leaves the container and
the volume list as they are and the loop goes on: the final `Env`, `VolumeMounts` and
volume list of a call are those of the call on a cluster that differs only in that the
service account lists the same references without the failing ones. -/
theorem C3_partial_tolerance (s3 : S3Pkg) (gcs : GCSPkg) (c c2 : CredentialBuilder)
    (ns serviceAccountName : String) (container : Container) (volumes : List Volume)
    (sa sa2 : ServiceAccount)
    (hcfg : c2.config = c.config)
    (hsec : c2.client.GetSecret = c.client.GetSecret)
    (hsa : c.client.GetServiceAccount
      { Name := if serviceAccountName = "" then "default" else serviceAccountName,
        Namespace := ns } = .ok sa)
    (hsa2 : c2.client.GetServiceAccount
      { Name := if serviceAccountName = "" then "default" else serviceAccountName,
        Namespace := ns } = .ok sa2)
    (hrefs : sa2.Secrets = sa.Secrets.filter
      (fun r => (c.client.GetSecret { Name := r.Name, Namespace := ns }).isOk)) :
    ((CreateSecretVolumeAndEnv s3 gcs c ns serviceAccountName container volumes).container.Env
        = (CreateSecretVolumeAndEnv s3 gcs c2 ns serviceAccountName container
            volumes).container.Env
      ∧ (CreateSecretVolumeAndEnv s3 gcs c ns serviceAccountName container
            volumes).container.VolumeMounts
        = (CreateSecretVolumeAndEnv s3 gcs c2 ns serviceAccountName container
            volumes).container.VolumeMounts
      ∧ (CreateSecretVolumeAndEnv s3 gcs c ns serviceAccountName container volumes).volumes
        = (CreateSecretVolumeAndEnv s3 gcs c2 ns serviceAccountName container volumes).volumes)
    ∧ (∀ (st : LoopState) (r : ObjectReference) (e : Error),
        c.client.GetSecret { Name := r.Name, Namespace := ns } = .error e →
        (secretLoopBody s3 gcs c ns (effectiveS3Key s3 c) (effectiveGCSKey gcs c)
            st r).container = st.container
        ∧ (secretLoopBody s3 gcs c ns (effectiveS3Key s3 c) (effectiveGCSKey gcs c)
            st r).volumes = st.volumes) := by
  constructor
  · have hk : effectiveS3Key s3 c2 = effectiveS3Key s3 c
        ∧ effectiveGCSKey gcs c2 = effectiveGCSKey gcs c := by
      simp only [effectiveS3Key, effectiveGCSKey, hcfg, and_self]
    have hc := appended_congr s3 gcs c c2 ns (effectiveS3Key s3 c) (effectiveGCSKey gcs c)
      hcfg hsec
    rw [CreateSecretVolumeAndEnv_ok_container s3 gcs c ns serviceAccountName container volumes
        sa hsa,
      CreateSecretVolumeAndEnv_ok_volumes s3 gcs c ns serviceAccountName container volumes
        sa hsa,
      CreateSecretVolumeAndEnv_ok_container s3 gcs c2 ns serviceAccountName container volumes
        sa2 hsa2,
      CreateSecretVolumeAndEnv_ok_volumes s3 gcs c2 ns serviceAccountName container volumes
        sa2 hsa2,
      hk.1, hk.2, hc.1, hc.2.1, hc.2.2, hrefs,
      flatMap_filter_of_nil _ _
        (fun r h => (appended_of_not_isOk s3 gcs c ns _ _ r h).1) sa.Secrets,
      flatMap_filter_of_nil _ _
        (fun r h => (appended_of_not_isOk s3 gcs c ns _ _ r h).2.1) sa.Secrets,
      flatMap_filter_of_nil _ _
        (fun r h => (appended_of_not_isOk s3 gcs c ns _ _ r h).2.2) sa.Secrets]
    exact ⟨rfl, rfl, rfl⟩
  · intro st r e hget
    rw [secretLoopBody_container, secretLoopBody_volumes,
      appendedEnv_fetch_error s3 gcs c ns _ _ r e hget,
      appendedVolumeMounts_fetch_error gcs c ns _ _ r e hget,
      appendedVolumes_fetch_error gcs c ns _ _ r e hget]
    simp

/-- C3, instantiated: the service account references `s3cred`, the missing secret
`nosuch` and `gcscred`; the other cluster references `s3cred` and `gcscred` only. -/
theorem C3_partial_tolerance_witness :
    (List.map sampleRef ["s3cred", "gcscred"]
      = (List.map sampleRef ["s3cred", "nosuch", "gcscred"]).filter
          (fun r => (sampleGetSecret { Name := r.Name, Namespace := "ns1" }).isOk))
    ∧ sampleGetSecret { Name := (sampleRef "nosuch").Name, Namespace := "ns1" }
        = .error "secret not found"
    ∧ (CreateSecretVolumeAndEnv sampleS3 sampleGCS
          (sampleBuilder ["s3cred", "nosuch", "gcscred"] "" "")
          "ns1" "" sampleContainer sampleVolumes).container.Env
        = (CreateSecretVolumeAndEnv sampleS3 sampleGCS
            (sampleBuilder ["s3cred", "gcscred"] "" "")
            "ns1" "" sampleContainer sampleVolumes).container.Env
    ∧ (CreateSecretVolumeAndEnv sampleS3 sampleGCS
          (sampleBuilder ["s3cred", "nosuch", "gcscred"] "" "")
          "ns1" "" sampleContainer sampleVolumes).container.Env
        = sampleContainer.Env
          ++ [{ Name := "AWS_ACCESS_KEY_ID", Value := ""
                ValueFrom := some { Name := "s3cred", Key := "awsAccessKeyID" } },
              { Name := "AWS_SECRET_ACCESS_KEY", Value := ""
                ValueFrom := some { Name := "s3cred", Key := "" } },
              { Name := "GOOGLE_APPLICATION_CREDENTIALS"
                Value := "/var/secrets/gcloud-application-credentials.json"
                ValueFrom := none }]
    ∧ (CreateSecretVolumeAndEnv sampleS3 sampleGCS
          (sampleBuilder ["s3cred", "nosuch", "gcscred"] "" "")
          "ns1" "" sampleContainer sampleVolumes).volumes
        = sampleVolumes ++ [{ Name := "gcscred", SecretName := some "gcscred" }] := by
  have h := C3_partial_tolerance sampleS3 sampleGCS
    (sampleBuilder ["s3cred", "nosuch", "gcscred"] "" "")
    (sampleBuilder ["s3cred", "gcscred"] "" "")
    "ns1" "" sampleContainer sampleVolumes
    { Name := "default", Namespace := "ns1"
      Secrets := List.map sampleRef ["s3cred", "nosuch", "gcscred"] }
    { Name := "default", Namespace := "ns1"
      Secrets := List.map sampleRef ["s3cred", "gcscred"] }
    rfl rfl rfl rfl (by decide)
  exact ⟨by decide, rfl, h.1.1, by decide, by decide⟩

/-- C4: ordering.  The loop body appends one block per reference (possibly empty) to
each of `Env`, `VolumeMounts` and the volume list, and a call leaves the blocks in the
enumeration order of `serviceAccount.Secrets`: each final list is the list on entry
followed by the blocks of the references, first to last; so for positions `i < j` the
block of the reference at `i` lies before the block of the reference at `j`.  For
references `[x, y, z]` with `x` backend-A, `y` unrecognized and `z` backend-B the appended
part of `Env` is the variables `s3.BuildSecretEnvs` gives for `x` followed by the GCS
credential variable of `z`. -/
theorem C4_enumeration_order (s3 : S3Pkg) (gcs : GCSPkg) (c : CredentialBuilder)
    (ns serviceAccountName : String) (container : Container) (volumes : List Volume)
    (sa : ServiceAccount)
    (hsa : c.client.GetServiceAccount
      { Name := if serviceAccountName = "" then "default" else serviceAccountName,
        Namespace := ns } = .ok sa) :
    (∀ (st : LoopState) (r : ObjectReference),
      (secretLoopBody s3 gcs c ns (effectiveS3Key s3 c) (effectiveGCSKey gcs c)
          st r).container.Env
        = st.container.Env
          ++ appendedEnv s3 gcs c ns (effectiveS3Key s3 c) (effectiveGCSKey gcs c) r
      ∧ (secretLoopBody s3 gcs c ns (effectiveS3Key s3 c) (effectiveGCSKey gcs c)
          st r).container.VolumeMounts
        = st.container.VolumeMounts
          ++ appendedVolumeMounts gcs c ns (effectiveS3Key s3 c) (effectiveGCSKey gcs c) r
      ∧ (secretLoopBody s3 gcs c ns (effectiveS3Key s3 c) (effectiveGCSKey gcs c)
          st r).volumes
        = st.volumes
          ++ appendedVolumes gcs c ns (effectiveS3Key s3 c) (effectiveGCSKey gcs c) r)
    ∧ ((CreateSecretVolumeAndEnv s3 gcs c ns serviceAccountName container
          volumes).container.Env
        = container.Env ++ sa.Secrets.flatMap
            (appendedEnv s3 gcs c ns (effectiveS3Key s3 c) (effectiveGCSKey gcs c))
      ∧ (CreateSecretVolumeAndEnv s3 gcs c ns serviceAccountName container
          volumes).container.VolumeMounts
        = container.VolumeMounts ++ sa.Secrets.flatMap
            (appendedVolumeMounts gcs c ns (effectiveS3Key s3 c) (effectiveGCSKey gcs c))
      ∧ (CreateSecretVolumeAndEnv s3 gcs c ns serviceAccountName container volumes).volumes
        = volumes ++ sa.Secrets.flatMap
            (appendedVolumes gcs c ns (effectiveS3Key s3 c) (effectiveGCSKey gcs c)))
    ∧ (∀ (i j : Nat) (ri rj : ObjectReference),
        i < j → sa.Secrets[i]? = some ri → sa.Secrets[j]? = some rj →
        (∃ before between after : List EnvVar,
          (CreateSecretVolumeAndEnv s3 gcs c ns serviceAccountName container
              volumes).container.Env
            = container.Env ++ before
              ++ appendedEnv s3 gcs c ns (effectiveS3Key s3 c) (effectiveGCSKey gcs c) ri
              ++ between
              ++ appendedEnv s3 gcs c ns (effectiveS3Key s3 c) (effectiveGCSKey gcs c) rj
              ++ after)
        ∧ (∃ before between after : List VolumeMount,
          (CreateSecretVolumeAndEnv s3 gcs c ns serviceAccountName container
              volumes).container.VolumeMounts
            = container.VolumeMounts ++ before
              ++ appendedVolumeMounts gcs c ns (effectiveS3Key s3 c) (effectiveGCSKey gcs c) ri
              ++ between
              ++ appendedVolumeMounts gcs c ns (effectiveS3Key s3 c) (effectiveGCSKey gcs c) rj
              ++ after)
        ∧ (∃ before between after : List Volume,
          (CreateSecretVolumeAndEnv s3 gcs c ns serviceAccountName container volumes).volumes
            = volumes ++ before
              ++ appendedVolumes gcs c ns (effectiveS3Key s3 c) (effectiveGCSKey gcs c) ri
              ++ between
              ++ appendedVolumes gcs c ns (effectiveS3Key s3 c) (effectiveGCSKey gcs c) rj
              ++ after))
    ∧ (∀ (x y z : ObjectReference) (sx sy sz : Secret),
        sa.Secrets = [x, y, z] →
        c.client.GetSecret { Name := x.Name, Namespace := ns } = .ok sx →
        c.client.GetSecret { Name := y.Name, Namespace := ns } = .ok sy →
        c.client.GetSecret { Name := z.Name, Namespace := ns } = .ok sz →
        sx.hasKey (effectiveS3Key s3 c) = true →
        sy.hasKey (effectiveS3Key s3 c) = false →
        sy.hasKey (effectiveGCSKey gcs c) = false →
        sz.hasKey (effectiveS3Key s3 c) = false →
        sz.hasKey (effectiveGCSKey gcs c) = true →
        (CreateSecretVolumeAndEnv s3 gcs c ns serviceAccountName container
            volumes).container.Env
          = container.Env ++ s3.BuildSecretEnvs sx c.config.S3
            ++ [{ Name := gcs.GCSCredentialEnvKey
                  Value := gcs.GCSCredentialVolumeMountPath ++ effectiveGCSKey gcs c
                  ValueFrom := none }]) := by
  have hc := CreateSecretVolumeAndEnv_ok_container s3 gcs c ns serviceAccountName container
    volumes sa hsa
  have hv := CreateSecretVolumeAndEnv_ok_volumes s3 gcs c ns serviceAccountName container
    volumes sa hsa
  refine ⟨?_, ⟨by rw [hc], by rw [hc], hv⟩, ?_, ?_⟩
  · intro st r
    rw [secretLoopBody_container, secretLoopBody_volumes]
    exact ⟨rfl, rfl, rfl⟩
  · intro i j ri rj hij hi hj
    obtain ⟨p, m, q, hl⟩ := split_at_two_positions sa.Secrets i j ri rj hij hi hj
    rw [hc, hv, hl]
    refine ⟨⟨p.flatMap (appendedEnv s3 gcs c ns (effectiveS3Key s3 c) (effectiveGCSKey gcs c)),
        m.flatMap (appendedEnv s3 gcs c ns (effectiveS3Key s3 c) (effectiveGCSKey gcs c)),
        q.flatMap (appendedEnv s3 gcs c ns (effectiveS3Key s3 c) (effectiveGCSKey gcs c)), ?_⟩,
      ⟨p.flatMap (appendedVolumeMounts gcs c ns (effectiveS3Key s3 c) (effectiveGCSKey gcs c)),
        m.flatMap (appendedVolumeMounts gcs c ns (effectiveS3Key s3 c) (effectiveGCSKey gcs c)),
        q.flatMap (appendedVolumeMounts gcs c ns (effectiveS3Key s3 c) (effectiveGCSKey gcs c)),
        ?_⟩,
      ⟨p.flatMap (appendedVolumes gcs c ns (effectiveS3Key s3 c) (effectiveGCSKey gcs c)),
        m.flatMap (appendedVolumes gcs c ns (effectiveS3Key s3 c) (effectiveGCSKey gcs c)),
        q.flatMap (appendedVolumes gcs c ns (effectiveS3Key s3 c) (effectiveGCSKey gcs c)),
        ?_⟩⟩ <;>
    simp [List.flatMap_append, List.append_assoc]
  · intro x y z sx sy sz hl hx hy hz hxA hyA hyB hzA hzB
    rw [hc, hl]
    simp [List.flatMap_cons,
      appendedEnv_backendA s3 gcs c ns _ _ x sx hx hxA,
      appendedEnv_unrecognized s3 gcs c ns _ _ y sy hy hyA hyB,
      appendedEnv_backendB s3 gcs c ns _ _ z sz hz hzA hzB]

/-- C4, instantiated: the service account references `s3cred` (backend-A), `other`
(unrecognized) and `gcscred` (backend-B), in this order. -/
theorem C4_enumeration_order_witness :
    (sampleBuilder ["s3cred", "other", "gcscred"] "" "").client.GetServiceAccount
        { Name := if "" = "" then "default" else "", Namespace := "ns1" }
      = .ok { Name := "default", Namespace := "ns1"
              Secrets := [sampleRef "s3cred", sampleRef "other", sampleRef "gcscred"] }
    ∧ (CreateSecretVolumeAndEnv sampleS3 sampleGCS
          (sampleBuilder ["s3cred", "other", "gcscred"] "" "")
          "ns1" "" sampleContainer sampleVolumes).container.Env
        = [{ Name := "STORAGE_URI", Value := "s3://bucket/model", ValueFrom := none },
           { Name := "AWS_ACCESS_KEY_ID", Value := ""
             ValueFrom := some { Name := "s3cred", Key := "awsAccessKeyID" } },
           { Name := "AWS_SECRET_ACCESS_KEY", Value := ""
             ValueFrom := some { Name := "s3cred", Key := "" } },
           { Name := "GOOGLE_APPLICATION_CREDENTIALS"
             Value := "/var/secrets/gcloud-application-credentials.json"
             ValueFrom := none }] := by
  have h := C4_enumeration_order sampleS3 sampleGCS
    (sampleBuilder ["s3cred", "other", "gcscred"] "" "") "ns1" "" sampleContainer sampleVolumes
    { Name := "default", Namespace := "ns1"
      Secrets := [sampleRef "s3cred", sampleRef "other", sampleRef "gcscred"] } rfl
  have h3 := h.2.2.2 (sampleRef "s3cred") (sampleRef "other") (sampleRef "gcscred")
    { Name := "s3cred", Namespace := "ns1", Data := [("awsAccessKeyID", [65, 75])] }
    { Name := "other", Namespace := "ns1", Data := [("token", [7])] }
    { Name := "gcscred", Namespace := "ns1"
      Data := [("gcloud-application-credentials.json", [123, 125])] }
    rfl rfl rfl rfl (by decide) (by decide) (by decide) (by decide) (by decide)
  refine ⟨rfl, ?_⟩
  rw [h3]
  decide

/-- C6: unrecognized secrets are a no-op.  A fetched secret whose data contains neither
the effective backend-A key nor the effective backend-B key (a secret with empty data
is one) leaves the container and the volume list unchanged; and when every referenced
secret that is fetched is of this kind, the container and the volume list on exit are
the ones on entry. -/
theorem C6_unrecognized_is_noop (s3 : S3Pkg) (gcs : GCSPkg) (c : CredentialBuilder)
    (ns : String) :
    (∀ (st : LoopState) (r : ObjectReference) (secret : Secret),
      c.client.GetSecret { Name := r.Name, Namespace := ns } = .ok secret →
      secret.hasKey (effectiveS3Key s3 c) = false →
      secret.hasKey (effectiveGCSKey gcs c) = false →
      (secretLoopBody s3 gcs c ns (effectiveS3Key s3 c) (effectiveGCSKey gcs c)
          st r).container = st.container
      ∧ (secretLoopBody s3 gcs c ns (effectiveS3Key s3 c) (effectiveGCSKey gcs c)
          st r).volumes = st.volumes)
    ∧ (∀ (st : LoopState) (r : ObjectReference) (secret : Secret),
      c.client.GetSecret { Name := r.Name, Namespace := ns } = .ok secret →
      secret.Data = [] →
      (secretLoopBody s3 gcs c ns (effectiveS3Key s3 c) (effectiveGCSKey gcs c)
          st r).container = st.container
      ∧ (secretLoopBody s3 gcs c ns (effectiveS3Key s3 c) (effectiveGCSKey gcs c)
          st r).volumes = st.volumes)
    ∧ (∀ (serviceAccountName : String) (container : Container) (volumes : List Volume)
        (sa : ServiceAccount),
      c.client.GetServiceAccount
        { Name := if serviceAccountName = "" then "default" else serviceAccountName,
          Namespace := ns } = .ok sa →
      (∀ r ∈ sa.Secrets, ∀ secret : Secret,
        c.client.GetSecret { Name := r.Name, Namespace := ns } = .ok secret →
        secret.hasKey (effectiveS3Key s3 c) = false
        ∧ secret.hasKey (effectiveGCSKey gcs c) = false) →
      (CreateSecretVolumeAndEnv s3 gcs c ns serviceAccountName container volumes).container
        = container
      ∧ (CreateSecretVolumeAndEnv s3 gcs c ns serviceAccountName container volumes).volumes
        = volumes
      ∧ (CreateSecretVolumeAndEnv s3 gcs c ns serviceAccountName container volumes).err
        = none) := by
  have step : ∀ (st : LoopState) (r : ObjectReference) (secret : Secret),
      c.client.GetSecret { Name := r.Name, Namespace := ns } = .ok secret →
      secret.hasKey (effectiveS3Key s3 c) = false →
      secret.hasKey (effectiveGCSKey gcs c) = false →
      (secretLoopBody s3 gcs c ns (effectiveS3Key s3 c) (effectiveGCSKey gcs c)
          st r).container = st.container
      ∧ (secretLoopBody s3 gcs c ns (effectiveS3Key s3 c) (effectiveGCSKey gcs c)
          st r).volumes = st.volumes := by
    intro st r secret hget hA hB
    rw [secretLoopBody_container, secretLoopBody_volumes,
      appendedEnv_unrecognized s3 gcs c ns _ _ r secret hget hA hB,
      appendedVolumeMounts_unrecognized gcs c ns _ _ r secret hget hA hB,
      appendedVolumes_unrecognized gcs c ns _ _ r secret hget hA hB]
    simp
  refine ⟨step, ?_, ?_⟩
  · intro st r secret hget hd
    exact step st r secret hget (by simp [Secret.hasKey, hd]) (by simp [Secret.hasKey, hd])
  · intro name container volumes sa hsa hall
    have hnil : ∀ r ∈ sa.Secrets,
        appendedEnv s3 gcs c ns (effectiveS3Key s3 c) (effectiveGCSKey gcs c) r = []
        ∧ appendedVolumeMounts gcs c ns (effectiveS3Key s3 c) (effectiveGCSKey gcs c) r = []
        ∧ appendedVolumes gcs c ns (effectiveS3Key s3 c) (effectiveGCSKey gcs c) r = [] := by
      intro r hr
      cases hget : c.client.GetSecret { Name := r.Name, Namespace := ns } with
      | error e =>
        exact ⟨appendedEnv_fetch_error s3 gcs c ns _ _ r e hget,
          appendedVolumeMounts_fetch_error gcs c ns _ _ r e hget,
          appendedVolumes_fetch_error gcs c ns _ _ r e hget⟩
      | ok secret =>
        obtain ⟨hA, hB⟩ := hall r hr secret hget
        exact ⟨appendedEnv_unrecognized s3 gcs c ns _ _ r secret hget hA hB,
          appendedVolumeMounts_unrecognized gcs c ns _ _ r secret hget hA hB,
          appendedVolumes_unrecognized gcs c ns _ _ r secret hget hA hB⟩
    have hE : sa.Secrets.flatMap
        (appendedEnv s3 gcs c ns (effectiveS3Key s3 c) (effectiveGCSKey gcs c)) = [] := by
      rw [List.flatMap_eq_nil_iff]; exact fun r hr => (hnil r hr).1
    have hM : sa.Secrets.flatMap
        (appendedVolumeMounts gcs c ns (effectiveS3Key s3 c) (effectiveGCSKey gcs c)) = [] := by
      rw [List.flatMap_eq_nil_iff]; exact fun r hr => (hnil r hr).2.1
    have hV : sa.Secrets.flatMap
        (appendedVolumes gcs c ns (effectiveS3Key s3 c) (effectiveGCSKey gcs c)) = [] := by
      rw [List.flatMap_eq_nil_iff]; exact fun r hr => (hnil r hr).2.2
    rw [CreateSecretVolumeAndEnv_ok_container s3 gcs c ns name container volumes sa hsa,
      CreateSecretVolumeAndEnv_ok_volumes s3 gcs c ns name container volumes sa hsa,
      hE, hM, hV]
    exact ⟨by simp, by simp,
      CreateSecretVolumeAndEnv_err s3 gcs c ns name container volumes⟩

/-- C6, instantiated: the service account references `other` (data without either key)
and `empty` (no data). -/
theorem C6_unrecognized_is_noop_witness :
    (sampleBuilder ["other", "empty"] "" "").client.GetServiceAccount
        { Name := if "default" = "" then "default" else "default", Namespace := "ns1" }
      = .ok { Name := "default", Namespace := "ns1"
              Secrets := [sampleRef "other", sampleRef "empty"] }
    ∧ sampleGetSecret { Name := (sampleRef "other").Name, Namespace := "ns1" }
        = .ok { Name := "other", Namespace := "ns1", Data := [("token", [7])] }
    ∧ sampleGetSecret { Name := (sampleRef "empty").Name, Namespace := "ns1" }
        = .ok { Name := "empty", Namespace := "ns1", Data := [] }
    ∧ (CreateSecretVolumeAndEnv sampleS3 sampleGCS (sampleBuilder ["other", "empty"] "" "")
        "ns1" "default" sampleContainer sampleVolumes).container = sampleContainer
    ∧ (CreateSecretVolumeAndEnv sampleS3 sampleGCS (sampleBuilder ["other", "empty"] "" "")
        "ns1" "default" sampleContainer sampleVolumes).volumes = sampleVolumes := by
  have h := (C6_unrecognized_is_noop sampleS3 sampleGCS
    (sampleBuilder ["other", "empty"] "" "") "ns1").2.2 "default" sampleContainer sampleVolumes
    { Name := "default", Namespace := "ns1"
      Secrets := [sampleRef "other", sampleRef "empty"] } rfl
    (by
      intro r hr secret hget
      simp only [List.mem_cons, List.mem_singleton, List.not_mem_nil, or_false] at hr
      rcases hr with rfl | rfl
      · have : secret = { Name := "other", Namespace := "ns1", Data := [("token", [7])] } :=
          (Except.ok.inj (hget.symm.trans rfl)).symm ▸ rfl
        subst this
        exact ⟨by decide, by decide⟩
      · have : secret = { Name := "empty", Namespace := "ns1", Data := [] } :=
          (Except.ok.inj (hget.symm.trans rfl)).symm ▸ rfl
        subst this
        exact ⟨by decide, by decide⟩)
  exact ⟨rfl, rfl, rfl, h.1, h.2.1⟩

/-- C7: backend-B mutation shape.  For a fetched secret whose data lacks the effective
backend-A key and contains the effective backend-B key, the loop body appends exactly
one volume and exactly one volume mount, the pair returned by `gcs.BuildSecretVolume`,
and exactly one environment variable, named `gcs.GCSCredentialEnvKey`, whose value is
`gcs.GCSCredentialVolumeMountPath` followed by the overlay's `GCSCredentialFileName`
when that is non-empty and by `gcs.GCSCredentialFileName` otherwise; in a whole call
these are the blocks the reference contributes to the three final lists. -/
theorem C7_backendB_shape (s3 : S3Pkg) (gcs : GCSPkg) (c : CredentialBuilder)
    (ns : String) (secretRef : ObjectReference) (secret : Secret)
    (hget : c.client.GetSecret { Name := secretRef.Name, Namespace := ns } = .ok secret)
    (hA : secret.hasKey (effectiveS3Key s3 c) = false)
    (hB : secret.hasKey (effectiveGCSKey gcs c) = true) :
    (∀ st : LoopState,
      (secretLoopBody s3 gcs c ns (effectiveS3Key s3 c) (effectiveGCSKey gcs c)
          st secretRef).volumes
        = st.volumes ++ [(gcs.BuildSecretVolume secret).1]
      ∧ (secretLoopBody s3 gcs c ns (effectiveS3Key s3 c) (effectiveGCSKey gcs c)
          st secretRef).container.VolumeMounts
        = st.container.VolumeMounts ++ [(gcs.BuildSecretVolume secret).2]
      ∧ (secretLoopBody s3 gcs c ns (effectiveS3Key s3 c) (effectiveGCSKey gcs c)
          st secretRef).container.Env
        = st.container.Env ++
          [{ Name := gcs.GCSCredentialEnvKey
             Value := gcs.GCSCredentialVolumeMountPath ++
               (if c.config.GCS.GCSCredentialFileName ≠ "" then
                  c.config.GCS.GCSCredentialFileName
                else gcs.GCSCredentialFileName)
             ValueFrom := none }])
    ∧ (∀ (name : String) (container : Container) (volumes : List Volume)
        (sa : ServiceAccount) (pre post : List ObjectReference),
        c.client.GetServiceAccount
          { Name := if name = "" then "default" else name, Namespace := ns } = .ok sa →
        sa.Secrets = pre ++ secretRef :: post →
        (CreateSecretVolumeAndEnv s3 gcs c ns name container volumes).volumes =
            volumes
              ++ pre.flatMap
                  (appendedVolumes gcs c ns (effectiveS3Key s3 c) (effectiveGCSKey gcs c))
              ++ [(gcs.BuildSecretVolume secret).1]
              ++ post.flatMap
                  (appendedVolumes gcs c ns (effectiveS3Key s3 c) (effectiveGCSKey gcs c))
        ∧ (CreateSecretVolumeAndEnv s3 gcs c ns name container volumes).container.VolumeMounts =
            container.VolumeMounts
              ++ pre.flatMap
                  (appendedVolumeMounts gcs c ns (effectiveS3Key s3 c) (effectiveGCSKey gcs c))
              ++ [(gcs.BuildSecretVolume secret).2]
              ++ post.flatMap
                  (appendedVolumeMounts gcs c ns (effectiveS3Key s3 c) (effectiveGCSKey gcs c))
        ∧ (CreateSecretVolumeAndEnv s3 gcs c ns name container volumes).container.Env =
            container.Env
              ++ pre.flatMap
                  (appendedEnv s3 gcs c ns (effectiveS3Key s3 c) (effectiveGCSKey gcs c))
              ++ [{ Name := gcs.GCSCredentialEnvKey
                    Value := gcs.GCSCredentialVolumeMountPath ++
                      (if c.config.GCS.GCSCredentialFileName ≠ "" then
                         c.config.GCS.GCSCredentialFileName
                       else gcs.GCSCredentialFileName)
                    ValueFrom := none }]
              ++ post.flatMap
                  (appendedEnv s3 gcs c ns (effectiveS3Key s3 c) (effectiveGCSKey gcs c))) := by
  have hE := appendedEnv_backendB s3 gcs c ns _ _ secretRef secret hget hA hB
  have hM := appendedVolumeMounts_backendB gcs c ns _ _ secretRef secret hget hA hB
  have hV := appendedVolumes_backendB gcs c ns _ _ secretRef secret hget hA hB
  constructor
  · intro st
    rw [secretLoopBody_container, secretLoopBody_volumes, hE, hM, hV]
    exact ⟨rfl, rfl, rfl⟩
  · intro name container volumes sa pre post hsa hrefs
    have h := CreateSecretVolumeAndEnv_split s3 gcs c ns name container volumes sa pre post
      secretRef hsa hrefs
    rw [hE, hM, hV] at h
    exact ⟨h.2.2, h.2.1, h.1⟩

/-- C7, instantiated: the service account references the backend-B secret `gcscred`
only, with an empty overlay. -/
theorem C7_backendB_shape_witness :
    sampleGetSecret { Name := (sampleRef "gcscred").Name, Namespace := "ns1" }
      = .ok { Name := "gcscred", Namespace := "ns1"
              Data := [("gcloud-application-credentials.json", [123, 125])] }
    ∧ (CreateSecretVolumeAndEnv sampleS3 sampleGCS (sampleBuilder ["gcscred"] "" "")
        "ns1" "" sampleContainer sampleVolumes).volumes
      = sampleVolumes ++ [{ Name := "gcscred", SecretName := some "gcscred" }]
    ∧ (CreateSecretVolumeAndEnv sampleS3 sampleGCS (sampleBuilder ["gcscred"] "" "")
        "ns1" "" sampleContainer sampleVolumes).container.VolumeMounts
      = sampleContainer.VolumeMounts
        ++ [{ Name := "gcscred", ReadOnly := true, MountPath := "/var/secrets/" }]
    ∧ (CreateSecretVolumeAndEnv sampleS3 sampleGCS (sampleBuilder ["gcscred"] "" "")
        "ns1" "" sampleContainer sampleVolumes).container.Env
      = sampleContainer.Env
        ++ [{ Name := "GOOGLE_APPLICATION_CREDENTIALS"
              Value := "/var/secrets/gcloud-application-credentials.json"
              ValueFrom := none }] := by
  have h := (C7_backendB_shape sampleS3 sampleGCS (sampleBuilder ["gcscred"] "" "") "ns1"
    (sampleRef "gcscred")
    { Name := "gcscred", Namespace := "ns1"
      Data := [("gcloud-application-credentials.json", [123, 125])] }
    rfl (by decide) (by decide)).2 "" sampleContainer sampleVolumes
    { Name := "default", Namespace := "ns1", Secrets := [sampleRef "gcscred"] }
    [] [] rfl rfl
  refine ⟨rfl, ?_, ?_, ?_⟩
  · rw [h.1]; rfl
  · rw [h.2.1]; rfl
  · rw [h.2.2]; decide

/-- C8: override precedence.  In a call, every reference contributes according to the
presence of two keys in its secret: for backend-A the overlay's `S3SecretAccessKeyName`
unless that is empty, in which case `s3.AWSSecretAccessKeyName`; for backend-B the
overlay's `GCSCredentialFileName` unless that is empty, in which case
`gcs.GCSCredentialFileName`.  With the overlay's backend-A key set to "custom-key", a
fetched secret whose data contains "custom-key" is handled as backend-A, also when it
lacks the built-in default key: its block in the final `Env` is what
`s3.BuildSecretEnvs` returns for it, and it adds no volume and no mount. -/
theorem C8_override_precedence (s3 : S3Pkg) (gcs : GCSPkg) (c : CredentialBuilder)
    (ns serviceAccountName : String) (container : Container) (volumes : List Volume)
    (sa : ServiceAccount)
    (hsa : c.client.GetServiceAccount
      { Name := if serviceAccountName = "" then "default" else serviceAccountName,
        Namespace := ns } = .ok sa) :
    ((CreateSecretVolumeAndEnv s3 gcs c ns serviceAccountName container
          volumes).container.Env
        = container.Env ++ sa.Secrets.flatMap
            (appendedEnv s3 gcs c ns
              (if c.config.S3.S3SecretAccessKeyName = "" then s3.AWSSecretAccessKeyName
               else c.config.S3.S3SecretAccessKeyName)
              (if c.config.GCS.GCSCredentialFileName = "" then gcs.GCSCredentialFileName
               else c.config.GCS.GCSCredentialFileName))
      ∧ (CreateSecretVolumeAndEnv s3 gcs c ns serviceAccountName container
          volumes).container.VolumeMounts
        = container.VolumeMounts ++ sa.Secrets.flatMap
            (appendedVolumeMounts gcs c ns
              (if c.config.S3.S3SecretAccessKeyName = "" then s3.AWSSecretAccessKeyName
               else c.config.S3.S3SecretAccessKeyName)
              (if c.config.GCS.GCSCredentialFileName = "" then gcs.GCSCredentialFileName
               else c.config.GCS.GCSCredentialFileName))
      ∧ (CreateSecretVolumeAndEnv s3 gcs c ns serviceAccountName container volumes).volumes
        = volumes ++ sa.Secrets.flatMap
            (appendedVolumes gcs c ns
              (if c.config.S3.S3SecretAccessKeyName = "" then s3.AWSSecretAccessKeyName
               else c.config.S3.S3SecretAccessKeyName)
              (if c.config.GCS.GCSCredentialFileName = "" then gcs.GCSCredentialFileName
               else c.config.GCS.GCSCredentialFileName)))
    ∧ (∀ (pre post : List ObjectReference) (secretRef : ObjectReference) (secret : Secret),
        sa.Secrets = pre ++ secretRef :: post →
        c.client.GetSecret { Name := secretRef.Name, Namespace := ns } = .ok secret →
        c.config.S3.S3SecretAccessKeyName = "custom-key" →
        secret.hasKey "custom-key" = true →
        (CreateSecretVolumeAndEnv s3 gcs c ns serviceAccountName container
            volumes).container.Env
          = container.Env
            ++ pre.flatMap
                (appendedEnv s3 gcs c ns (effectiveS3Key s3 c) (effectiveGCSKey gcs c))
            ++ s3.BuildSecretEnvs secret c.config.S3
            ++ post.flatMap
                (appendedEnv s3 gcs c ns (effectiveS3Key s3 c) (effectiveGCSKey gcs c))
        ∧ (CreateSecretVolumeAndEnv s3 gcs c ns serviceAccountName container
            volumes).container.VolumeMounts
          = container.VolumeMounts
            ++ pre.flatMap
                (appendedVolumeMounts gcs c ns (effectiveS3Key s3 c) (effectiveGCSKey gcs c))
            ++ post.flatMap
                (appendedVolumeMounts gcs c ns (effectiveS3Key s3 c) (effectiveGCSKey gcs c))
        ∧ (CreateSecretVolumeAndEnv s3 gcs c ns serviceAccountName container volumes).volumes
          = volumes
            ++ pre.flatMap
                (appendedVolumes gcs c ns (effectiveS3Key s3 c) (effectiveGCSKey gcs c))
            ++ post.flatMap
                (appendedVolumes gcs c ns (effectiveS3Key s3 c) (effectiveGCSKey gcs c)))
    ∧ (∀ (pre post : List ObjectReference) (secretRef : ObjectReference) (secret : Secret),
        sa.Secrets = pre ++ secretRef :: post →
        c.client.GetSecret { Name := secretRef.Name, Namespace := ns } = .ok secret →
        c.config.S3.S3SecretAccessKeyName = "" →
        secret.hasKey s3.AWSSecretAccessKeyName = true →
        (CreateSecretVolumeAndEnv s3 gcs c ns serviceAccountName container
            volumes).container.Env
          = container.Env
            ++ pre.flatMap
                (appendedEnv s3 gcs c ns (effectiveS3Key s3 c) (effectiveGCSKey gcs c))
            ++ s3.BuildSecretEnvs secret c.config.S3
            ++ post.flatMap
                (appendedEnv s3 gcs c ns (effectiveS3Key s3 c) (effectiveGCSKey gcs c))) := by
  have hkA : (if c.config.S3.S3SecretAccessKeyName = "" then s3.AWSSecretAccessKeyName
      else c.config.S3.S3SecretAccessKeyName) = effectiveS3Key s3 c := by
    unfold effectiveS3Key
    by_cases h : c.config.S3.S3SecretAccessKeyName = "" <;> simp [h]
  have hkB : (if c.config.GCS.GCSCredentialFileName = "" then gcs.GCSCredentialFileName
      else c.config.GCS.GCSCredentialFileName) = effectiveGCSKey gcs c := by
    unfold effectiveGCSKey
    by_cases h : c.config.GCS.GCSCredentialFileName = "" <;> simp [h]
  have hc := CreateSecretVolumeAndEnv_ok_container s3 gcs c ns serviceAccountName container
    volumes sa hsa
  have hv := CreateSecretVolumeAndEnv_ok_volumes s3 gcs c ns serviceAccountName container
    volumes sa hsa
  refine ⟨⟨by rw [hc, hkA, hkB], by rw [hc, hkA, hkB], by rw [hv, hkA, hkB]⟩, ?_, ?_⟩
  · intro pre post secretRef secret hrefs hget hover hkey
    have hA : secret.hasKey (effectiveS3Key s3 c) = true := by
      rw [← hkA, hover]; simpa using hkey
    have h := CreateSecretVolumeAndEnv_split s3 gcs c ns serviceAccountName container volumes
      sa pre post secretRef hsa hrefs
    rw [appendedEnv_backendA s3 gcs c ns _ _ secretRef secret hget hA,
      appendedVolumeMounts_backendA gcs c ns _ _ secretRef secret hget hA,
      appendedVolumes_backendA gcs c ns _ _ secretRef secret hget hA] at h
    simpa using h
  · intro pre post secretRef secret hrefs hget hover hkey
    have hA : secret.hasKey (effectiveS3Key s3 c) = true := by
      rw [← hkA, hover]; simpa using hkey
    have h := CreateSecretVolumeAndEnv_split s3 gcs c ns serviceAccountName container volumes
      sa pre post secretRef hsa hrefs
    rw [appendedEnv_backendA s3 gcs c ns _ _ secretRef secret hget hA] at h
    exact h.1

/-- C8, instantiated: the overlay sets the backend-A key to "custom-key"; the secret
`custom` has that key only, and the secret `s3cred`, which has the built-in default key
only, is no longer recognised. -/
theorem C8_override_precedence_witness :
    (sampleBuilder ["s3cred", "custom"] "custom-key" "").client.GetServiceAccount
        { Name := if "" = "" then "default" else "", Namespace := "ns1" }
      = .ok { Name := "default", Namespace := "ns1"
              Secrets := [sampleRef "s3cred", sampleRef "custom"] }
    ∧ Secret.hasKey { Name := "custom", Namespace := "ns1", Data := [("custom-key", [1])] }
        sampleS3.AWSSecretAccessKeyName = false
    ∧ (CreateSecretVolumeAndEnv sampleS3 sampleGCS
          (sampleBuilder ["s3cred", "custom"] "custom-key" "")
          "ns1" "" sampleContainer sampleVolumes).container.Env
        = sampleContainer.Env
          ++ [{ Name := "AWS_ACCESS_KEY_ID", Value := ""
                ValueFrom := some { Name := "custom", Key := "awsAccessKeyID" } },
              { Name := "AWS_SECRET_ACCESS_KEY", Value := ""
                ValueFrom := some { Name := "custom", Key := "custom-key" } }]
    ∧ (CreateSecretVolumeAndEnv sampleS3 sampleGCS
          (sampleBuilder ["s3cred", "custom"] "custom-key" "")
          "ns1" "" sampleContainer sampleVolumes).volumes = sampleVolumes := by
  have h := (C8_override_precedence sampleS3 sampleGCS
    (sampleBuilder ["s3cred", "custom"] "custom-key" "") "ns1" "" sampleContainer sampleVolumes
    { Name := "default", Namespace := "ns1"
      Secrets := [sampleRef "s3cred", sampleRef "custom"] } rfl).2.1
    [sampleRef "s3cred"] [] (sampleRef "custom")
    { Name := "custom", Namespace := "ns1", Data := [("custom-key", [1])] }
    rfl rfl rfl (by decide)
  refine ⟨rfl, by decide, ?_, ?_⟩
  · rw [h.1]; decide
  · rw [h.2.2]; decide

/-- C9: end-to-end example with the default backend-A overlay, taking "awsAccessKeyID"
as the value of the default backend-A key `s3.AWSSecretAccessKeyName`.  When the service
account "default" of namespace "ns1" references the secret "s3cred" and that secret's
data contains the key "awsAccessKeyID", the call
`CreateSecretVolumeAndEnv("ns1", "default", container, volumes)` appends the variables
`s3.BuildSecretEnvs` gives for the secret to the container's `Env`, adds no volume and
no volume mount, and returns `nil`. -/
theorem C9_end_to_end_example (s3 : S3Pkg) (gcs : GCSPkg) (c : CredentialBuilder)
    (container : Container) (volumes : List Volume)
    (sa : ServiceAccount) (secretRef : ObjectReference) (secret : Secret)
    (hdefault : s3.AWSSecretAccessKeyName = specAWSSecretAccessKeyName)
    (hoverlay : c.config.S3.S3SecretAccessKeyName = "")
    (hsa : c.client.GetServiceAccount { Name := "default", Namespace := "ns1" } = .ok sa)
    (hrefs : sa.Secrets = [secretRef])
    (hname : secretRef.Name = "s3cred")
    (hget : c.client.GetSecret { Name := "s3cred", Namespace := "ns1" } = .ok secret)
    (hkey : secret.hasKey "awsAccessKeyID" = true) :
    (CreateSecretVolumeAndEnv s3 gcs c "ns1" "default" container volumes).container.Env
      = container.Env ++ s3.BuildSecretEnvs secret c.config.S3
    ∧ (CreateSecretVolumeAndEnv s3 gcs c "ns1" "default" container volumes).volumes = volumes
    ∧ (CreateSecretVolumeAndEnv s3 gcs c "ns1" "default" container volumes).container.VolumeMounts
      = container.VolumeMounts
    ∧ (CreateSecretVolumeAndEnv s3 gcs c "ns1" "default" container volumes).err = none := by
  have hA : secret.hasKey (effectiveS3Key s3 c) = true := by
    simp only [effectiveS3Key, hoverlay, hdefault, specAWSSecretAccessKeyName]
    simpa using hkey
  have hget2 : c.client.GetSecret { Name := secretRef.Name, Namespace := "ns1" } = .ok secret := by
    rw [hname]; exact hget
  have h := CreateSecretVolumeAndEnv_split s3 gcs c "ns1" "default" container volumes sa [] []
    secretRef hsa (by simpa using hrefs)
  rw [appendedEnv_backendA s3 gcs c "ns1" _ _ secretRef secret hget2 hA,
    appendedVolumeMounts_backendA gcs c "ns1" _ _ secretRef secret hget2 hA,
    appendedVolumes_backendA gcs c "ns1" _ _ secretRef secret hget2 hA] at h
  refine ⟨by simpa using h.1, by simpa using h.2.2, by simpa using h.2.1,
    CreateSecretVolumeAndEnv_err s3 gcs c "ns1" "default" container volumes⟩

/-- C9, instantiated on the sample cluster. -/
theorem C9_end_to_end_example_witness :
    sampleS3.AWSSecretAccessKeyName = specAWSSecretAccessKeyName
    ∧ (sampleBuilder ["s3cred"] "" "").client.GetServiceAccount
        { Name := "default", Namespace := "ns1" }
      = .ok { Name := "default", Namespace := "ns1", Secrets := [sampleRef "s3cred"] }
    ∧ (sampleBuilder ["s3cred"] "" "").client.GetSecret
        { Name := "s3cred", Namespace := "ns1" }
      = .ok { Name := "s3cred", Namespace := "ns1", Data := [("awsAccessKeyID", [65, 75])] }
    ∧ (CreateSecretVolumeAndEnv sampleS3 sampleGCS (sampleBuilder ["s3cred"] "" "")
        "ns1" "default" sampleContainer sampleVolumes).container.Env
      = [{ Name := "STORAGE_URI", Value := "s3://bucket/model", ValueFrom := none },
         { Name := "AWS_ACCESS_KEY_ID", Value := ""
           ValueFrom := some { Name := "s3cred", Key := "awsAccessKeyID" } },
         { Name := "AWS_SECRET_ACCESS_KEY", Value := ""
           ValueFrom := some { Name := "s3cred", Key := "" } }]
    ∧ (CreateSecretVolumeAndEnv sampleS3 sampleGCS (sampleBuilder ["s3cred"] "" "")
        "ns1" "default" sampleContainer sampleVolumes).volumes = sampleVolumes := by
  have h := C9_end_to_end_example sampleS3 sampleGCS (sampleBuilder ["s3cred"] "" "")
    sampleContainer sampleVolumes
    { Name := "default", Namespace := "ns1", Secrets := [sampleRef "s3cred"] }
    (sampleRef "s3cred")
    { Name := "s3cred", Namespace := "ns1", Data := [("awsAccessKeyID", [65, 75])] }
    rfl rfl rfl rfl rfl rfl (by decide)
  refine ⟨rfl, rfl, rfl, ?_, h.2.1⟩
  rw [h.1]; decide

end Credentials
